import Mathlib

/-!
Verification of the `ctoption` crate: a compile-time alternative to `Option`
whose presence/absence is recorded as a const-generic boolean in the type,
with storage `MaybeUninit<T>` and `#[repr(transparent)]` layout.

Embedding conventions:
* `MaybeUninit T` is a cell that either holds a live `T` or is uninitialized;
  we record this as an `Option T` field (`none` = uninitialized bytes).
* Reading uninitialized storage as a `T` is undefined behavior; such reads are
  embedded as `Option`-returning functions (`none` = UB / failure).
* Destructor activity is made observable: drop glue returns the list of values
  on which the destructor of `T` is invoked.
* Type layout (size/alignment) is modelled by a small layout algebra derived
  from the declared `repr` attributes and the documented layout guarantees of
  `MaybeUninit`.
-/

/-- The cell `core::mem::MaybeUninit<T>`: either holds a live `T`
(`val? = some v`) or is uninitialized (`val? = none`). -/
structure MaybeUninit (T : Type) where
  val? : Option T
  deriving DecidableEq

/-- `MaybeUninit::new(val)`: an initialized cell holding `val`. -/
def MaybeUninit.new {T : Type} (val : T) : MaybeUninit T :=
  MaybeUninit.mk (some val)

/-- `MaybeUninit::uninit()`: an uninitialized cell. -/
def MaybeUninit.uninit {T : Type} : MaybeUninit T :=
  MaybeUninit.mk none

/-- `MaybeUninit::assume_init_drop(&mut self)`: runs the destructor of `T` on
the cell contents, assuming the cell is initialized. Returns the list of
values destructed; reading an uninitialized cell as `T` is UB (`none`). -/
def MaybeUninit.assume_init_drop {T : Type} (c : MaybeUninit T) : Option (List T) :=
  Option.map (fun v => [v]) (MaybeUninit.val? c)

/-- `core::mem::ManuallyDrop<T>`: a transparent wrapper whose drop glue never
runs the destructor of the contents. -/
structure ManuallyDrop (T : Type) where
  value : T
  deriving DecidableEq

/-- `ManuallyDrop::new(value)`. -/
def ManuallyDrop.new {T : Type} (value : T) : ManuallyDrop T :=
  ManuallyDrop.mk value

/-- `ManuallyDrop::into_inner(slot)`. -/
def ManuallyDrop.into_inner {T : Type} (m : ManuallyDrop T) : T :=
  ManuallyDrop.value m

/-- Drop glue of `ManuallyDrop<T>`: by its documented contract it runs no
destructor of the contents, so the destructor trace is empty. -/
def ManuallyDrop.dropGlue {T : Type} (m : ManuallyDrop T) : List T :=
  []

/-- `#[repr(transparent)] pub struct CTOption<T, const IS_SOME_VAL: bool>(MaybeUninit<T>);`
The presence tag `IS_SOME_VAL` lives purely in the type; the only data is the
`MaybeUninit<T>` cell. -/
structure CTOption (T : Type) (IS_SOME_VAL : Bool) where
  cell : MaybeUninit T
  deriving DecidableEq

/-- `pub const IS_SOME: bool = true;` -/
def IS_SOME : Bool := true

/-- `pub const IS_NONE: bool = false;` -/
def IS_NONE : Bool := false

/-- `pub type CTSome<T> = CTOption<T, true>;` -/
abbrev CTSome (T : Type) : Type := CTOption T true

/-- `pub type CTNone<T> = CTOption<T, false>;` -/
abbrev CTNone (T : Type) : Type := CTOption T false

/-- `CTSome::new(val)`: wraps `val` in an initialized cell. -/
def CTSome.new {T : Type} (val : T) : CTSome T :=
  CTOption.mk (MaybeUninit.new val)

/-- Reading the `md_inner` member of the union
`union CTSomeUnion<T> { md_ctsome: ManuallyDrop<CTSome<T>>, md_inner: ManuallyDrop<T> }`
that was written through `md_ctsome`: both members are transparent wrappers
over the same bytes, so this reinterprets the `MaybeUninit<T>` cell as a `T`.
Defined iff the cell is initialized (otherwise the read is UB). -/
def CTSomeUnion.read_inner {T : Type} (u : ManuallyDrop (CTSome T)) : Option (ManuallyDrop T) :=
  Option.map ManuallyDrop.mk (MaybeUninit.val? (CTOption.cell (ManuallyDrop.value u)))

/-- `CTSome::into_inner(self)`: moves `self` into a `ManuallyDrop` (suppressing
the container drop glue), reads the union member reinterpreting the storage as
`T`, and unwraps it. Runs no destructor; defined iff the cell is initialized. -/
def CTSome.into_inner {T : Type} (s : CTSome T) : Option T :=
  let md_ctsome := ManuallyDrop.new s
  Option.map ManuallyDrop.into_inner (CTSomeUnion.read_inner md_ctsome)

/-- `CTSome::assume_const_generic_val::<IS_SOME_VAL>(self)`: reinterprets a
`CTSome<T>` as `CTOption<T, IS_SOME_VAL>` through a union of two transparent
wrappers of the same `MaybeUninit<T>`; the cell bytes are carried over
unchanged. The target tag is the explicit first argument. -/
def CTSome.assume_const_generic_val {T : Type} (IS_SOME_VAL : Bool) (s : CTSome T) :
    CTOption T IS_SOME_VAL :=
  CTOption.mk (CTOption.cell s)

/-- `CTNone::new()`: an absent container over an uninitialized cell. -/
def CTNone.new {T : Type} : CTNone T :=
  CTOption.mk MaybeUninit.uninit

/-- `CTNone::insert(mut self, val)`: overwrites the cell with
`MaybeUninit::new(val)` (the overwritten value is a `MaybeUninit<T>`, whose
drop runs no destructor of `T`), then reinterprets the container as
`CTSome<T>` through the variant union, carrying the cell over unchanged. -/
def CTNone.insert {T : Type} (s : CTNone T) (val : T) : CTSome T :=
  let overwritten : CTNone T := CTOption.mk (MaybeUninit.new val)
  CTOption.mk (CTOption.cell overwritten)

/-- `CTOption::from_maybe_uninit(val)`: wraps a raw cell at any tag. -/
def CTOption.from_maybe_uninit {T : Type} {IS_SOME_VAL : Bool} (val : MaybeUninit T) :
    CTOption T IS_SOME_VAL :=
  CTOption.mk val

/-- `CTOption::is_some(&self)`: returns the const-generic tag. -/
def CTOption.is_some {T : Type} {IS_SOME_VAL : Bool} (s : CTOption T IS_SOME_VAL) : Bool :=
  IS_SOME_VAL

/-- `CTOption::assume_some(self)`: reinterprets any `CTOption<T, b>` as
`CTSome<T>` through a union of two transparent wrappers of the same
`MaybeUninit<T>` cell; the cell bytes are carried over unchanged. -/
def CTOption.assume_some {T : Type} {IS_SOME_VAL : Bool} (s : CTOption T IS_SOME_VAL) :
    CTSome T :=
  CTOption.mk (CTOption.cell s)

/-- `CTOption::assume_none(self)`: reinterprets any `CTOption<T, b>` as
`CTNone<T>`; the cell bytes are carried over unchanged. -/
def CTOption.assume_none {T : Type} {IS_SOME_VAL : Bool} (s : CTOption T IS_SOME_VAL) :
    CTNone T :=
  CTOption.mk (CTOption.cell s)

/-- Drop glue of `CTOption<T, IS_SOME_VAL>` (`impl Drop`): when the tag is
true it runs `assume_init_drop` on the cell (destructing the contained value;
UB if the cell is uninitialized), otherwise it touches nothing. Returns the
destructor trace. -/
def CTOption.dropGlue {T : Type} {IS_SOME_VAL : Bool} (s : CTOption T IS_SOME_VAL) :
    Option (List T) :=
  if IS_SOME_VAL then MaybeUninit.assume_init_drop (CTOption.cell s) else some []

/-- `unsafe impl OptionalConstGeneric for CTOption<T, IS_SOME_VAL>`:
the associated type `Inner` is `T`. -/
def CTOption.OptionalConstGenericInner (T : Type) (IS_SOME_VAL : Bool) : Type :=
  T

/-- `unsafe impl OptionalConstGeneric for CTOption<T, IS_SOME_VAL>`:
the associated const `IS_SOME_VAL` is the tag. -/
def CTOption.OptionalConstGenericIsSome (T : Type) (IS_SOME_VAL : Bool) : Bool :=
  IS_SOME_VAL

/-- `opt_const_generic::to_option`, instantiated at the sole implementor
`CTOption<T, IS_SOME_VAL>` of `OptionalConstGeneric`: transmutes the argument
to its `MaybeUninit<T>` storage (a transparent re-view, preserving the cell),
then branches on the associated const tag: if true, rebuilds a `CTSome` from
the storage and extracts it; if false, returns `None` without reading the
storage. The outer `Option` records definedness (UB-freedom) of the body. -/
def opt_const_generic.to_option {T : Type} {IS_SOME_VAL : Bool}
    (opt : CTOption T IS_SOME_VAL) : Option (Option T) :=
  let storage : MaybeUninit T := CTOption.cell opt
  match CTOption.OptionalConstGenericIsSome T IS_SOME_VAL with
  | true => Option.map Option.some (CTSome.into_inner (CTOption.from_maybe_uninit storage))
  | false => some none

/-- `ctoption::workarounds::Option<T>`: the standalone const-generic-parameter
value type (`derive(Eq, PartialEq, ConstParamTy)`). -/
inductive workaroundsOption (T : Type) where
  | some : T → workaroundsOption T
  | none : workaroundsOption T
  deriving DecidableEq

/-- `workarounds::Option::into_core(self)`: total conversion into
`core::option::Option<T>` by case analysis on the two arms. -/
def workaroundsOption.into_core {T : Type} : workaroundsOption T → Option T
  | workaroundsOption.some x => Option.some x
  | workaroundsOption.none => Option.none

/-- An abstract type layout: size and alignment in bytes. -/
structure Layout where
  size : Nat
  align : Nat
  deriving DecidableEq

/-- Layout of `MaybeUninit<T>` in terms of the layout of `T`: by its
documented guarantee, `MaybeUninit<T>` has the same size and alignment
as `T`. -/
def MaybeUninit.layoutOf (t : Layout) : Layout :=
  t

/-- Layout of `CTOption<T, IS_SOME_VAL>` in terms of the layout of `T`:
`#[repr(transparent)]` gives the struct exactly the layout of its single
field `MaybeUninit<T>`; the const-generic tag contributes no bytes. -/
def CTOption.layoutOf (t : Layout) (IS_SOME_VAL : Bool) : Layout :=
  MaybeUninit.layoutOf t

/-- Layout of the array `[i32; n]` built from the element layout:
`n` contiguous elements, element alignment. -/
def arrayLayoutOf (elem : Layout) (n : Nat) : Layout :=
  Layout.mk (n * Layout.size elem) (Layout.align elem)

/-- Claim C1: constructing with `CTSome::new(v)` and extracting with
`CTSome::into_inner` returns a value equal to `v`, for every type and value. -/
theorem ctsome_new_into_inner_roundtrip (T : Type) (v : T) :
    CTSome.into_inner (CTSome.new v) = some v := by
  rfl

/-- Claim C2: `CTNone::new()` followed by `insert v` (a total operation
returning a `CTSome`) followed by `into_inner` returns `v`, for every type
and value. -/
theorem ctnone_insert_into_inner_roundtrip (T : Type) (v : T) :
    CTSome.into_inner (CTNone.insert CTNone.new v) = some v := by
  rfl

/-- Claim C3: drop glue of a never-extracted Present container runs the
destructor of `T` exactly once, on the stored value; drop glue of an Absent
container runs no destructor whatever the cell holds; and `into_inner` moves
the container into a `ManuallyDrop` whose drop glue is empty, so extraction
itself never triggers the container's destructor of `T` (no double-cleanup). -/
theorem droponce_present_none_absent_extract_disarms (T : Type) (v : T)
    (c : MaybeUninit T) (s : CTSome T) :
    CTOption.dropGlue (CTSome.new v) = some [v]
    ∧ CTOption.dropGlue (CTOption.mk c : CTNone T) = some []
    ∧ ManuallyDrop.dropGlue (ManuallyDrop.new s) = [] := by
  refine ⟨rfl, rfl, rfl⟩

/-- Claim C4: the runtime bridge `to_option` maps a Present container holding
`v` (any initialized cell) to `Some v`, and maps an Absent container to `None`
without reading the storage as a `T` (it is defined for every cell, even an
uninitialized one). -/
theorem to_option_present_some_absent_none (T : Type) (v : T) (c : MaybeUninit T) :
    opt_const_generic.to_option (CTOption.mk (MaybeUninit.mk (some v)) : CTSome T)
      = some (some v)
    ∧ opt_const_generic.to_option (CTOption.mk c : CTNone T) = some none := by
  refine ⟨rfl, rfl⟩

/-- Claim C5: `is_some` is a pure function returning exactly the compile-time
tag `IS_SOME_VAL` on every instance, and the `OptionalConstGeneric` impl for
`CTOption<T, IS_SOME_VAL>` exposes exactly the value type `T` and the tag
`IS_SOME_VAL`. -/
theorem is_some_returns_tag_and_introspection (T : Type) (IS_SOME_VAL : Bool)
    (s : CTOption T IS_SOME_VAL) :
    CTOption.is_some s = IS_SOME_VAL
    ∧ CTOption.OptionalConstGenericInner T IS_SOME_VAL = T
    ∧ CTOption.OptionalConstGenericIsSome T IS_SOME_VAL = IS_SOME_VAL := by
  refine ⟨rfl, rfl, rfl⟩

/-- Claim C6: the reinterpretation operations `assume_some`, `assume_none` and
`assume_const_generic_val` change only the type-level tag: the `MaybeUninit<T>`
cell of the output equals that of the input, for every value type, every
source tag and every target tag. -/
theorem reinterpretations_preserve_cell (T : Type) (b btarget : Bool)
    (s : CTOption T b) (t : CTSome T) :
    CTOption.cell (CTOption.assume_some s) = CTOption.cell s
    ∧ CTOption.cell (CTOption.assume_none s) = CTOption.cell s
    ∧ CTOption.cell (CTSome.assume_const_generic_val btarget t) = CTOption.cell t := by
  refine ⟨rfl, rfl, rfl⟩

/-- Claim C7: the safe operations are total. `new_absent`, `new_present`,
`is_present` and `insert` return plain values by construction; `into_inner`
is defined (never fails) on every Present container whose cell is initialized
— in particular after `new` or after `insert` — and `into_core` returns a
result on each of the two arms of `workarounds::Option`. -/
theorem safe_operations_total (T : Type) (v : T) (s : CTSome T)
    (h : Option.isSome (MaybeUninit.val? (CTOption.cell s)) = true) :
    Option.isSome (CTSome.into_inner s) = true
    ∧ CTSome.into_inner (CTSome.new v) = some v
    ∧ CTSome.into_inner (CTNone.insert CTNone.new v) = some v
    ∧ CTOption.is_some (CTNone.new : CTNone T) = false
    ∧ workaroundsOption.into_core (workaroundsOption.some v) = Option.some v
    ∧ workaroundsOption.into_core (workaroundsOption.none : workaroundsOption T)
        = Option.none := by
  refine ⟨?_, rfl, rfl, rfl, rfl, rfl⟩
  unfold CTSome.into_inner CTSomeUnion.read_inner
  rcases hval : MaybeUninit.val? (CTOption.cell s) with _ | w
  · rw [hval] at h
    simp at h
  · simp [ManuallyDrop.new, hval]

/-- Witness for C7 at `T = Int`, `v = 37`, `s = CTSome.new 37`. -/
theorem safe_operations_total_witness :
    Option.isSome (CTSome.into_inner (CTSome.new (37 : Int))) = true
    ∧ CTSome.into_inner (CTSome.new (37 : Int)) = some 37
    ∧ CTSome.into_inner (CTNone.insert CTNone.new (37 : Int)) = some 37
    ∧ CTOption.is_some (CTNone.new : CTNone Int) = false
    ∧ workaroundsOption.into_core (workaroundsOption.some (37 : Int)) = Option.some 37
    ∧ workaroundsOption.into_core (workaroundsOption.none : workaroundsOption Int)
        = Option.none :=
  safe_operations_total Int 37 (CTSome.new 37) rfl

/-- Claim C8: `CTOption<T, IS_SOME_VAL>` has exactly the size and alignment of
`T`, for both tags: no discriminant byte and no tag padding. -/
theorem ctoption_layout_equals_value_layout (t : Layout) (IS_SOME_VAL : Bool) :
    Layout.size (CTOption.layoutOf t IS_SOME_VAL) = Layout.size t
    ∧ Layout.align (CTOption.layoutOf t IS_SOME_VAL) = Layout.align t := by
  refine ⟨rfl, rfl⟩

/-- The 5-field demonstration builder from the test suite: one independently
tagged `CTOption<i32, Bk>` per field (`i32` values embedded as `Int`; the test
only stores and moves them, no arithmetic). -/
structure Builder (B0 B1 B2 B3 B4 : Bool) where
  field0 : CTOption Int B0
  field1 : CTOption Int B1
  field2 : CTOption Int B2
  field3 : CTOption Int B3
  field4 : CTOption Int B4
  deriving DecidableEq

/-- `Builder::new()`: all five fields absent. -/
def Builder.new : Builder false false false false false :=
  Builder.mk CTNone.new CTNone.new CTNone.new CTNone.new CTNone.new

/-- `Builder::set_field0(self, val)`: consumes the builder, returns one whose
field 0 is `CTSome::new(val)`; the other fields are moved over unchanged. -/
def Builder.set_field0 {B1 B2 B3 B4 : Bool} (b : Builder false B1 B2 B3 B4) (val : Int) :
    Builder true B1 B2 B3 B4 :=
  Builder.mk (CTSome.new val) (Builder.field1 b) (Builder.field2 b) (Builder.field3 b)
    (Builder.field4 b)

/-- `Builder::set_field1(self, val)`. -/
def Builder.set_field1 {B0 B2 B3 B4 : Bool} (b : Builder B0 false B2 B3 B4) (val : Int) :
    Builder B0 true B2 B3 B4 :=
  Builder.mk (Builder.field0 b) (CTSome.new val) (Builder.field2 b) (Builder.field3 b)
    (Builder.field4 b)

/-- `Builder::set_field2(self, val)`. -/
def Builder.set_field2 {B0 B1 B3 B4 : Bool} (b : Builder B0 B1 false B3 B4) (val : Int) :
    Builder B0 B1 true B3 B4 :=
  Builder.mk (Builder.field0 b) (Builder.field1 b) (CTSome.new val) (Builder.field3 b)
    (Builder.field4 b)

/-- `Builder::set_field3(self, val)`. -/
def Builder.set_field3 {B0 B1 B2 B4 : Bool} (b : Builder B0 B1 B2 false B4) (val : Int) :
    Builder B0 B1 B2 true B4 :=
  Builder.mk (Builder.field0 b) (Builder.field1 b) (Builder.field2 b) (CTSome.new val)
    (Builder.field4 b)

/-- `Builder::set_field4(self, val)`. -/
def Builder.set_field4 {B0 B1 B2 B3 : Bool} (b : Builder B0 B1 B2 B3 false) (val : Int) :
    Builder B0 B1 B2 B3 true :=
  Builder.mk (Builder.field0 b) (Builder.field1 b) (Builder.field2 b) (Builder.field3 b)
    (CTSome.new val)

/-- `Builder::LEN`: the number of present fields,
`(B0 as usize) + (B1 as usize) + (B2 as usize) + (B3 as usize) + (B4 as usize)`. -/
def Builder.LEN (B0 B1 B2 B3 B4 : Bool) : Nat :=
  Bool.toNat B0 + Bool.toNat B1 + Bool.toNat B2 + Bool.toNat B3 + Bool.toNat B4

/-- `arr[i] = val` on a fixed-size array of `i32`, modelled on lists:
in bounds it stores the value, out of bounds it panics (`none`). -/
def arrayStore (arr : List Int) (i : Nat) (val : Int) : Option (List Int) :=
  if i < List.length arr then some (List.set arr i val) else none

/-- `Builder::build(self)`: `let mut arr = [0; Self::LEN]; let mut i = 0;`
then for each field `k` in order, `if Bk { arr[i] = field_k.assume_some().into_inner(); i += 1 }`
(the `i += 1` of the last guard is commented out in the source), returning
`arr`. `Option` records panic- and UB-freedom of the body. -/
def Builder.build {B0 B1 B2 B3 B4 : Bool} (b : Builder B0 B1 B2 B3 B4) :
    Option (List Int) := do
  let arr : List Int := List.replicate (Builder.LEN B0 B1 B2 B3 B4) 0
  let i : Nat := 0
  let (arr, i) ←
    if B0 then do
      let v ← CTSome.into_inner (CTOption.assume_some (Builder.field0 b))
      let arr ← arrayStore arr i v
      pure (arr, i + 1)
    else pure (arr, i)
  let (arr, i) ←
    if B1 then do
      let v ← CTSome.into_inner (CTOption.assume_some (Builder.field1 b))
      let arr ← arrayStore arr i v
      pure (arr, i + 1)
    else pure (arr, i)
  let (arr, i) ←
    if B2 then do
      let v ← CTSome.into_inner (CTOption.assume_some (Builder.field2 b))
      let arr ← arrayStore arr i v
      pure (arr, i + 1)
    else pure (arr, i)
  let (arr, i) ←
    if B3 then do
      let v ← CTSome.into_inner (CTOption.assume_some (Builder.field3 b))
      let arr ← arrayStore arr i v
      pure (arr, i + 1)
    else pure (arr, i)
  let arr ←
    if B4 then do
      let v ← CTSome.into_inner (CTOption.assume_some (Builder.field4 b))
      let arr ← arrayStore arr i v
      pure arr
    else pure arr
  pure arr

/-- Claim C9: from the all-absent builder, setting fields 0,1,2,3 with values
1,2,3,3 and building yields `[1,2,3,3]` of length 4, the array occupying
4 value-widths; setting all 5 fields with 1,2,3,3,5 yields `[1,2,3,3,5]` of
length 5, occupying 5 value-widths. -/
theorem builder_scenarios (elem : Layout) :
    Builder.build (Builder.set_field3 (Builder.set_field2 (Builder.set_field1
        (Builder.set_field0 Builder.new 1) 2) 3) 3) = some [1, 2, 3, 3]
    ∧ Builder.LEN true true true true false = 4
    ∧ Layout.size (arrayLayoutOf elem (Builder.LEN true true true true false))
        = 4 * Layout.size elem
    ∧ Builder.build (Builder.set_field4 (Builder.set_field3 (Builder.set_field2
        (Builder.set_field1 (Builder.set_field0 Builder.new 1) 2) 3) 3) 5)
        = some [1, 2, 3, 3, 5]
    ∧ Builder.LEN true true true true true = 5
    ∧ Layout.size (arrayLayoutOf elem (Builder.LEN true true true true true))
        = 5 * Layout.size elem := by
  refine ⟨rfl, rfl, rfl, rfl, rfl, rfl⟩

/-- Claim C10: for every combination of the five tags and every builder whose
Present fields hold initialized cells (as every builder reachable through
`new`/`set_field_k` does), `build` succeeds: every `arr[i]` write is in
bounds (the running index stays below `LEN`) and every `assume_some` is
applied only to a field whose tag is true and whose cell is initialized. -/
theorem build_in_bounds {B0 B1 B2 B3 B4 : Bool} (b : Builder B0 B1 B2 B3 B4)
    (h0 : B0 = true → ∃ v, MaybeUninit.val? (CTOption.cell (Builder.field0 b)) = some v)
    (h1 : B1 = true → ∃ v, MaybeUninit.val? (CTOption.cell (Builder.field1 b)) = some v)
    (h2 : B2 = true → ∃ v, MaybeUninit.val? (CTOption.cell (Builder.field2 b)) = some v)
    (h3 : B3 = true → ∃ v, MaybeUninit.val? (CTOption.cell (Builder.field3 b)) = some v)
    (h4 : B4 = true → ∃ v, MaybeUninit.val? (CTOption.cell (Builder.field4 b)) = some v) :
    Option.isSome (Builder.build b) = true := by
  obtain ⟨⟨⟨c0⟩⟩, ⟨⟨c1⟩⟩, ⟨⟨c2⟩⟩, ⟨⟨c3⟩⟩, ⟨⟨c4⟩⟩⟩ := b
  dsimp only at h0 h1 h2 h3 h4
  cases B0 <;> cases B1 <;> cases B2 <;> cases B3 <;> cases B4 <;>
    cases c0 <;> cases c1 <;> cases c2 <;> cases c3 <;> cases c4 <;>
    first
    | rfl
    | simp_all

/-- Witness for C10 at the all-fields-set builder of the test scenario. -/
theorem build_in_bounds_witness :
    Option.isSome (Builder.build (Builder.set_field4 (Builder.set_field3 (Builder.set_field2
      (Builder.set_field1 (Builder.set_field0 Builder.new 1) 2) 3) 3) 5)) = true :=
  build_in_bounds
    (Builder.set_field4 (Builder.set_field3 (Builder.set_field2
      (Builder.set_field1 (Builder.set_field0 Builder.new 1) 2) 3) 3) 5)
    (fun _ => ⟨1, rfl⟩) (fun _ => ⟨2, rfl⟩) (fun _ => ⟨3, rfl⟩)
    (fun _ => ⟨3, rfl⟩) (fun _ => ⟨5, rfl⟩)
